import Mathlib

/-
Verification of the Boba CLI proxy core against its specification.

The definitions below are a shallow embedding of the Go sources:
  * internal/proxy/autofill.go   (AutoFillParams, IsFakeID, IsSolanaChain,
    userIDTools, swapTools, walletParams)
  * internal/proxy (handleCall, CallTool, incrementRequests, NewProxyServer)
  * internal/proxy/middleware.go (withAuth)
  * internal/auth (RefreshTokens)
  * internal/mcp/bridge.go       (Run, handleRequest)

Go `map[string]any` argument maps are modelled as functions
`String -> Option GoValue`; JSON decoding yields strings, numbers
(float64 in Go; the only numeric comparison in the core is against the
integral chain id 1399811149, so Int is a faithful carrier) and other
values that the core never inspects beyond a failed string assertion.
HTTP and keyring effects are modelled as explicit oracle inputs.
-/

namespace Boba

/-- A JSON-decoded Go `any` value as seen by the proxy core. -/
inductive GoValue
  | str (s : String)
  | num (n : Int)
  | otherVal
deriving DecidableEq, Repr

/-- Go `map[string]any` argument maps, observed through lookups. -/
def ArgMap := String → Option GoValue

/-- config.AuthTokens. -/
structure AuthTokens where
  accessToken : String
  refreshToken : String
  accessTokenExpiresAt : String
  refreshTokenExpiresAt : String
  agentID : String
  agentName : String
  evmAddress : String
  solanaAddress : String
  subOrganizationID : String
deriving DecidableEq, Repr

/-- Go `val, _ := args[key].(string)`: the string value, or "" when the
key is absent or the value is not a string. -/
def goString : Option GoValue → String
  | some (GoValue.str s) => s
  | _ => ""

/-- strings.HasPrefix(id, "0x"): '0' and 'x' are one-byte runes, so the
byte test coincides with the first-two-characters test. -/
def startsWith0x (s : String) : Bool :=
  match s.toList with
  | '0' :: 'x' :: _ => true
  | _ => false

/-- Character class of the Go regexp `[1-9A-HJ-NP-Za-km-z]` (base58). -/
def isBase58Char (c : Char) : Bool :=
  ('1' ≤ c && c ≤ '9') || ('A' ≤ c && c ≤ 'H') || ('J' ≤ c && c ≤ 'N') ||
  ('P' ≤ c && c ≤ 'Z') || ('a' ≤ c && c ≤ 'k') || ('m' ≤ c && c ≤ 'z')

/-- Go regexp `^[1-9A-HJ-NP-Za-km-z]+$`. -/
def isBase58 (s : String) : Bool :=
  !s.toList.isEmpty && s.toList.all isBase58Char

/-- Go regexp `^1+$`. -/
def isAllOnes (s : String) : Bool :=
  !s.toList.isEmpty && s.toList.all (· == '1')

/-- Go regexp `^0+$`. -/
def isAllZeros (s : String) : Bool :=
  !s.toList.isEmpty && s.toList.all (· == '0')

/-- IsFakeID from autofill.go.  Go `len` counts bytes, hence
`utf8ByteSize` for the two length tests. -/
def isFakeID (id : String) : Bool :=
  if id = "" then true
  else if isAllOnes id then true
  else if isAllZeros id then true
  else if id = "me" ∨ id = "self" then true
  else if startsWith0x id ∧ id.utf8ByteSize = 42 then true
  else if 32 ≤ id.utf8ByteSize ∧ id.utf8ByteSize ≤ 44 ∧ isBase58 id then true
  else false

/-- strings.ToLower restricted to ASCII; every comparison made with the
result is against the ASCII literal "solana", and no rune outside ASCII
lowercases into {s,o,l,a,n}, so this is extensionally faithful there. -/
def lowerString (s : String) : String := String.mk (s.toList.map Char.toLower)

/-- IsSolanaChain from autofill.go: float64 1399811149 or the
case-insensitive string "solana"; anything else (including nil,
i.e. a missing "chain" key) is false. -/
def isSolanaChain (chain : Option GoValue) : Bool :=
  match chain with
  | some (GoValue.num n) => n == 1399811149
  | some (GoValue.str s) => lowerString s == "solana"
  | _ => false

/-- The userIDTools allowlist from autofill.go. -/
def userIDToolsList : List String :=
  ["get_portfolio", "get_portfolio_summary", "get_portfolio_pnl",
   "get_trade_history", "get_pnl_chart", "get_user_xp", "get_transfers",
   "get_wallet_balance", "get_limit_orders", "get_dca_orders",
   "get_twap_orders", "get_positions", "create_limit_order",
   "cancel_limit_order", "get_user_swaps", "refresh_native_balances",
   "start_portfolio_stream", "get_portfolio_price_updates",
   "stop_portfolio_stream"]

/-- Membership in the Go map `userIDTools`. -/
def userIDTools (tool : String) : Bool := userIDToolsList.contains tool

/-- The swapTools allowlist from autofill.go. -/
def swapToolsList : List String :=
  ["get_swap_price", "get_swap_quote", "execute_swap", "execute_trade"]

/-- Membership in the Go map `swapTools`. -/
def swapTools (tool : String) : Bool := swapToolsList.contains tool

/-- The walletParams key set from autofill.go.  The Go code ranges over a
map (arbitrary order); every iteration touches only its own key with a
choice fixed before the loop, so a fixed order is observationally equal. -/
def walletParamsList : List String :=
  ["wallet", "wallet_address", "walletAddress", "evm_address",
   "taker", "from_address", "fromAddress", "solana_address"]

/-- The literal placeholder values recognised by rule 2 of AutoFillParams. -/
def placeholderVals : List String :=
  ["my-wallet-evm", "my-wallet-svm", "me", "self"]

/-- Whether `pat` occurs as a contiguous run inside `l`
(strings.Contains on the decoded runes; all patterns used are ASCII). -/
def listHasSub (pat : List Char) : List Char → Bool
  | [] => pat.isEmpty
  | c :: rest => pat.isPrefixOf (c :: rest) || listHasSub pat rest

/-- strings.Contains(param, "solana"). -/
def containsSolana (param : String) : Bool :=
  listHasSub "solana".toList param.toList

/-- Rule 1 of AutoFillParams, per key: overwrite with the agent ID when
the incoming value is missing, not a string, empty, or a fake ID. -/
def userF (tk : AuthTokens) (x : Option GoValue) : Option GoValue :=
  let v := goString x
  if v = "" ∨ isFakeID v then some (GoValue.str tk.agentID) else x

/-- Rule 2 of AutoFillParams, per key: replace a literal placeholder
string with the Solana or EVM address; non-strings are skipped. -/
def walletF (tk : AuthTokens) (sol : Bool) (param : String) (x : Option GoValue) :
    Option GoValue :=
  match x with
  | some (GoValue.str v) =>
    if placeholderVals.contains v then
      some (GoValue.str
        (if sol ∨ containsSolana param then tk.solanaAddress else tk.evmAddress))
    else some (GoValue.str v)
  | y => y

/-- Rule 3 of AutoFillParams, per key: fill the from-address/taker field
when missing, not a string, empty, or a fake ID. -/
def swapF (tk : AuthTokens) (sol : Bool) (x : Option GoValue) : Option GoValue :=
  let v := goString x
  if v = "" ∨ isFakeID v then
    some (GoValue.str (if sol then tk.solanaAddress else tk.evmAddress))
  else x

/-- One Go statement `args[k] = f k (args[k])`, observed functionally. -/
def setByKey (f : String → Option GoValue → Option GoValue) (m : ArgMap)
    (k : String) : ArgMap :=
  fun k' => if k' = k then f k (m k) else m k'

/-- The two keys written by rule 1, in source order. -/
def userKeys : List String := ["user_id", "userId"]

/-- The three keys written by rule 3, in source order. -/
def swapKeys : List String := ["from_address", "fromAddress", "taker"]

/-- AutoFillParams from autofill.go.  The Go function mutates `args` in
place; the model returns the resulting map.  `solana` is computed once,
after rule 1 and before rules 2 and 3, exactly as in the source. -/
def autoFillParams (toolName : String) (args : ArgMap)
    (tokens : Option AuthTokens) : ArgMap :=
  match tokens with
  | none => args
  | some tk =>
    let a1 := if userIDTools toolName then
        List.foldl (setByKey (fun _ x => userF tk x)) args userKeys
      else args
    let sol := isSolanaChain (a1 "chain")
    let a2 := List.foldl (setByKey (walletF tk sol)) a1 walletParamsList
    if swapTools toolName then
      List.foldl (setByKey (fun _ x => swapF tk sol x)) a2 swapKeys
    else a2

/-- The pointwise effect of AutoFillParams at one key, given the chain
resolution computed from the map: rule 1, then rule 2, then rule 3,
each gated on its key set / allowlist. -/
def autoFillAt (tool : String) (tk : AuthTokens) (sol : Bool) (k : String)
    (x : Option GoValue) : Option GoValue :=
  let x1 := if userIDTools tool = true ∧ k ∈ userKeys then userF tk x else x
  let x2 := if k ∈ walletParamsList then walletF tk sol k x1 else x1
  if swapTools tool = true ∧ k ∈ swapKeys then swapF tk sol x2 else x2

theorem foldl_setByKey (f : String → Option GoValue → Option GoValue) :
    ∀ (ks : List String), ks.Nodup → ∀ (m : ArgMap) (k : String),
    List.foldl (setByKey f) m ks k = if k ∈ ks then f k (m k) else m k := by
  intro ks
  induction ks with
  | nil => intro _ m k; simp
  | cons k0 ks ih =>
    intro hnd m k
    have hk0 : k0 ∉ ks := (List.nodup_cons.mp hnd).1
    have hnd' : ks.Nodup := (List.nodup_cons.mp hnd).2
    simp only [List.foldl_cons]
    rw [ih hnd' (setByKey f m k0) k]
    by_cases hmem : k ∈ ks
    · have hne : k ≠ k0 := fun h => hk0 (h ▸ hmem)
      simp [hmem, setByKey, hne, List.mem_cons]
    · by_cases hek : k = k0
      · subst hek
        simp [hmem, setByKey]
      · simp [hmem, hek, setByKey, List.mem_cons]

theorem autoFillParams_apply (tool : String) (args : ArgMap) (tk : AuthTokens)
    (k : String) :
    autoFillParams tool args (some tk) k =
      autoFillAt tool tk (isSolanaChain (args "chain")) k (args k) := by
  have eU := foldl_setByKey (fun _ x => userF tk x) userKeys (by decide)
  have eW := fun (sol : Bool) =>
    foldl_setByKey (walletF tk sol) walletParamsList (by decide)
  have eS := fun (sol : Bool) =>
    foldl_setByKey (fun _ x => swapF tk sol x) swapKeys (by decide)
  have hcu : ("chain" : String) ∉ userKeys := by decide
  have hch : List.foldl (setByKey fun _ x => userF tk x) args userKeys "chain" =
      args "chain" := by
    rw [eU]
    simp [hcu]
  by_cases hu : userIDTools tool <;> by_cases hs : swapTools tool
  · simp only [autoFillParams, autoFillAt, hu, hs, if_true, true_and]
    simp only [hch]
    rw [eS (isSolanaChain (args "chain")), eW (isSolanaChain (args "chain"))]
    simp only [eU]
  · simp only [autoFillParams, autoFillAt, hu, hs, if_true, true_and,
      Bool.false_eq_true, false_and, if_false]
    simp only [hch]
    rw [eW (isSolanaChain (args "chain"))]
    simp only [eU]
  · simp only [autoFillParams, autoFillAt, hu, hs, if_true, true_and,
      Bool.false_eq_true, false_and, if_false]
    rw [eS (isSolanaChain (args "chain")), eW (isSolanaChain (args "chain"))]
  · simp only [autoFillParams, autoFillAt, hu, hs,
      Bool.false_eq_true, false_and, if_false]
    rw [eW (isSolanaChain (args "chain"))]

theorem userF_idem (tk : AuthTokens) (x : Option GoValue) :
    userF tk (userF tk x) = userF tk x := by
  by_cases h : goString x = "" ∨ isFakeID (goString x) <;> simp [userF, h]

theorem walletF_idem (tk : AuthTokens) (sol : Bool) (p : String)
    (x : Option GoValue) :
    walletF tk sol p (walletF tk sol p x) = walletF tk sol p x := by
  match x with
  | none => rfl
  | some GoValue.otherVal => rfl
  | some (GoValue.num n) => rfl
  | some (GoValue.str v) =>
    by_cases h : v ∈ placeholderVals <;> simp [walletF, h]

theorem swapF_idem (tk : AuthTokens) (sol : Bool) (x : Option GoValue) :
    swapF tk sol (swapF tk sol x) = swapF tk sol x := by
  by_cases h : goString x = "" ∨ isFakeID (goString x) <;> simp [swapF, h]

/-- For the rule-3 keys (whose names do not mention "solana"), rules 2
and 3 pick the same address, so rule 2 fixes the output of rule 3. -/
theorem walletF_swapF_fix (tk : AuthTokens) (sol : Bool) (p : String)
    (hc : containsSolana p = false) (y : Option GoValue) :
    walletF tk sol p (swapF tk sol (walletF tk sol p y)) =
      swapF tk sol (walletF tk sol p y) := by
  by_cases hb : goString (walletF tk sol p y) = "" ∨
      isFakeID (goString (walletF tk sol p y))
  · have hsf : swapF tk sol (walletF tk sol p y) =
        some (GoValue.str (if sol then tk.solanaAddress else tk.evmAddress)) := by
      simp [swapF, hb]
    rw [hsf]
    simp [walletF, hc]
  · have hsf : swapF tk sol (walletF tk sol p y) = walletF tk sol p y := by
      simp [swapF, hb]
    rw [hsf, walletF_idem]

theorem autoFillAt_idem (tool : String) (tk : AuthTokens) (sol : Bool)
    (k : String) (x : Option GoValue) :
    autoFillAt tool tk sol k (autoFillAt tool tk sol k x) =
      autoFillAt tool tk sol k x := by
  simp only [autoFillAt]
  by_cases h1 : userIDTools tool = true ∧ k ∈ userKeys
  · have hk : k = "user_id" ∨ k = "userId" := by
      have := h1.2
      simpa [userKeys] using this
    have hw : k ∉ walletParamsList := by
      rcases hk with h | h <;> subst h <;> decide
    have hs : ¬ (swapTools tool = true ∧ k ∈ swapKeys) := by
      rintro ⟨_, hmem⟩
      rcases hk with h | h <;> subst h <;> revert hmem <;> decide
    simp only [if_pos h1, if_neg hw, if_neg hs]
    exact userF_idem tk x
  · by_cases h2 : k ∈ walletParamsList
    · by_cases h3 : swapTools tool = true ∧ k ∈ swapKeys
      · have hk : k = "from_address" ∨ k = "fromAddress" ∨ k = "taker" := by
          have := h3.2
          simpa [swapKeys] using this
        have hc : containsSolana k = false := by
          rcases hk with h | h | h <;> subst h <;> decide
        simp only [if_neg h1, if_pos h2, if_pos h3]
        rw [walletF_swapF_fix tk sol k hc, swapF_idem]
      · simp only [if_neg h1, if_pos h2, if_neg h3]
        exact walletF_idem tk sol k x
    · by_cases h3 : swapTools tool = true ∧ k ∈ swapKeys
      · exfalso
        have hk : k = "from_address" ∨ k = "fromAddress" ∨ k = "taker" := by
          have := h3.2
          simpa [swapKeys] using this
        apply h2
        rcases hk with h | h | h <;> subst h <;> decide
      · simp only [if_neg h1, if_neg h2, if_neg h3]

/-- AutoFillParams never writes the "chain" key. -/
theorem autoFillParams_chain (tool : String) (args : ArgMap)
    (tk : AuthTokens) :
    autoFillParams tool args (some tk) "chain" = args "chain" := by
  rw [autoFillParams_apply]
  have h1 : ("chain" : String) ∉ userKeys := by decide
  have h2 : ("chain" : String) ∉ walletParamsList := by decide
  have h3 : ("chain" : String) ∉ swapKeys := by decide
  simp [autoFillAt, h1, h2, h3]

theorem isFakeID_of_0x42 (s : String) (h1 : startsWith0x s = true)
    (h2 : s.utf8ByteSize = 42) : isFakeID s = true := by
  simp [isFakeID, h1, h2]

theorem isFakeID_of_base58 (s : String) (h1 : 32 ≤ s.utf8ByteSize)
    (h2 : s.utf8ByteSize ≤ 44) (h3 : isBase58 s = true) : isFakeID s = true := by
  simp [isFakeID, h1, h2, h3]

/-- Rules 2 then 3 on a string value classified fake always end in the
chain-chosen wallet address (rule-3 keys never mention "solana"). -/
theorem swapfill_fake (tk : AuthTokens) (sol : Bool) (k : String)
    (hc : containsSolana k = false) (s : String) (hf : isFakeID s = true) :
    swapF tk sol (walletF tk sol k (some (GoValue.str s))) =
      some (GoValue.str (if sol then tk.solanaAddress else tk.evmAddress)) := by
  by_cases hpl : s ∈ placeholderVals
  · simp [walletF, swapF, goString, hpl, hc]
  · simp [walletF, swapF, goString, hpl, hf]

/-- C5: for every tool in the user-identity allowlist, running the
auto-fill engine with `user_id` absent, "me", "111111111111", a
42-byte 0x-prefixed string, or a 32-44-byte base58 string yields
`user_id` equal to the authenticated agent ID; for a tool outside the
allowlist an explicit non-placeholder `user_id` is left unchanged. -/
theorem claim5_user_id_autofill :
    (∀ (tool : String) (args : ArgMap) (tk : AuthTokens) (s : String),
      userIDTools tool = true →
      (args "user_id" = none ∨
        (args "user_id" = some (GoValue.str s) ∧
          (s = "me" ∨ s = "111111111111" ∨
           (startsWith0x s = true ∧ s.utf8ByteSize = 42) ∨
           (32 ≤ s.utf8ByteSize ∧ s.utf8ByteSize ≤ 44 ∧ isBase58 s = true)))) →
      autoFillParams tool args (some tk) "user_id" =
        some (GoValue.str tk.agentID)) ∧
    (∀ (tool : String) (args : ArgMap) (tk : AuthTokens) (v : String),
      userIDTools tool = false →
      args "user_id" = some (GoValue.str v) →
      v ≠ "" → isFakeID v = false →
      autoFillParams tool args (some tk) "user_id" =
        some (GoValue.str v)) := by
  have hk1 : ("user_id" : String) ∈ userKeys := by decide
  have hk2 : ("user_id" : String) ∉ walletParamsList := by decide
  have hk3 : ("user_id" : String) ∉ swapKeys := by decide
  constructor
  · intro tool args tk s htool hval
    rw [autoFillParams_apply]
    simp only [autoFillAt, htool, hk1, hk2, hk3, true_and, and_true, if_true,
      and_false, if_false, if_pos hk1, if_neg hk2]
    rcases hval with h | ⟨heq, hs⟩
    · simp [userF, goString, h]
    · have hfake : isFakeID s = true := by
        rcases hs with h | h | ⟨h1, h2⟩ | ⟨h1, h2, h3⟩
        · subst h; decide
        · subst h; decide
        · exact isFakeID_of_0x42 s h1 h2
        · exact isFakeID_of_base58 s h1 h2 h3
      simp [userF, goString, heq, hfake]
  · intro tool args tk v htool heq hne hnf
    rw [autoFillParams_apply]
    have hnu : ¬ (userIDTools tool = true ∧ ("user_id" : String) ∈ userKeys) := by
      rintro ⟨h, _⟩
      rw [htool] at h
      exact Bool.false_ne_true h
    have hns : ¬ (swapTools tool = true ∧ ("user_id" : String) ∈ swapKeys) :=
      fun h => hk3 h.2
    simp only [autoFillAt, if_neg hnu, if_neg hk2, if_neg hns]
    exact heq

/-- C5 witness: concrete applications of both halves of C5. -/
theorem claim5_user_id_autofill_witness :
    (userIDTools "get_portfolio" = true ∧
      autoFillParams "get_portfolio"
        (fun k => if k = "user_id" then some (GoValue.str "me") else none)
        (some ⟨"at", "rt", "e1", "e2", "AGENT-1", "nm", "0xE", "S", "org"⟩)
        "user_id" = some (GoValue.str "AGENT-1")) ∧
    (userIDTools "get_token_info" = false ∧
      autoFillParams "get_token_info"
        (fun k => if k = "user_id" then some (GoValue.str "alice-7") else none)
        (some ⟨"at", "rt", "e1", "e2", "AGENT-1", "nm", "0xE", "S", "org"⟩)
        "user_id" = some (GoValue.str "alice-7")) :=
  ⟨⟨by decide,
    claim5_user_id_autofill.1 "get_portfolio" _ _ "me" (by decide)
      (Or.inr ⟨by simp, Or.inl rfl⟩)⟩,
   ⟨by decide,
    claim5_user_id_autofill.2 "get_token_info" _ _ "alice-7" (by decide)
      (by simp) (by decide) (by decide)⟩⟩

/-- C10: for every tool in the user-identity allowlist and argument map
containing neither "user_id" nor "userId", AutoFillParams adds both
keys, each set to the authenticated agent ID. -/
theorem claim10_both_spellings (tool : String) (args : ArgMap)
    (tk : AuthTokens) (htool : userIDTools tool = true)
    (h1 : args "user_id" = none) (h2 : args "userId" = none) :
    autoFillParams tool args (some tk) "user_id" =
      some (GoValue.str tk.agentID) ∧
    autoFillParams tool args (some tk) "userId" =
      some (GoValue.str tk.agentID) := by
  constructor <;> rw [autoFillParams_apply]
  · have hk1 : ("user_id" : String) ∈ userKeys := by decide
    have hk2 : ("user_id" : String) ∉ walletParamsList := by decide
    have hk3 : ("user_id" : String) ∉ swapKeys := by decide
    have hns : ¬ (swapTools tool = true ∧ ("user_id" : String) ∈ swapKeys) :=
      fun h => hk3 h.2
    simp only [autoFillAt, if_pos (And.intro htool hk1), if_neg hk2, if_neg hns]
    simp [userF, goString, h1]
  · have hk1 : ("userId" : String) ∈ userKeys := by decide
    have hk2 : ("userId" : String) ∉ walletParamsList := by decide
    have hk3 : ("userId" : String) ∉ swapKeys := by decide
    have hns : ¬ (swapTools tool = true ∧ ("userId" : String) ∈ swapKeys) :=
      fun h => hk3 h.2
    simp only [autoFillAt, if_pos (And.intro htool hk1), if_neg hk2, if_neg hns]
    simp [userF, goString, h2]

/-- C10 witness: a concrete allowlisted tool and empty argument map. -/
theorem claim10_both_spellings_witness :
    userIDTools "get_wallet_balance" = true ∧
    (autoFillParams "get_wallet_balance" (fun _ => none)
        (some ⟨"at", "rt", "e1", "e2", "AGENT-9", "nm", "0xE", "S", "org"⟩)
        "user_id" = some (GoValue.str "AGENT-9") ∧
     autoFillParams "get_wallet_balance" (fun _ => none)
        (some ⟨"at", "rt", "e1", "e2", "AGENT-9", "nm", "0xE", "S", "org"⟩)
        "userId" = some (GoValue.str "AGENT-9")) :=
  ⟨by decide,
   claim10_both_spellings "get_wallet_balance" (fun _ => none) _
     (by decide) rfl rfl⟩

def c2Tokens : AuthTokens :=
  ⟨"at", "rt", "e1", "e2", "AGENT-1", "nm", "0xAGENT-EVM", "AGENT-SOL", "org"⟩

def c2Args : ArgMap := fun k =>
  if k = "taker" then
    some (GoValue.str "0x1234567890123456789012345678901234567890")
  else none

/-- C2 counterexample: the caller supplies an explicit well-formed EVM
address in `taker` of the allowlisted swap tool `execute_swap`, yet
AutoFillParams overwrites it with the agent wallet address, because
IsFakeID classifies every 42-byte 0x-prefixed string as fake. -/
theorem claim2_counterexample :
    swapTools "execute_swap" = true ∧
    isFakeID "0x1234567890123456789012345678901234567890" = true ∧
    autoFillParams "execute_swap" c2Args (some c2Tokens) "taker" =
      some (GoValue.str "0xAGENT-EVM") ∧
    autoFillParams "execute_swap" c2Args (some c2Tokens) "taker" ≠
      some (GoValue.str "0x1234567890123456789012345678901234567890") := by
  refine ⟨by decide, by decide, by decide, by decide⟩

/-- C2 amended: for the swap-tool allowlist, `taker`, `from_address` and
`fromAddress` are set to the Solana address when the resolved chain is
Solana and otherwise the EVM address whenever the field (after rule-2
placeholder substitution) is missing, non-string, empty, or classified
fake by IsFakeID; since IsFakeID classifies well-formed wallet-shaped
strings as fake, an explicit valid wallet address supplied by the
caller is overwritten as well.  Only string values that survive both
the placeholder check and IsFakeID are left unchanged. -/
theorem claim2_amended_swap_fill (tool : String) (args : ArgMap)
    (tk : AuthTokens) (k : String) (htool : swapTools tool = true)
    (hk : k = "taker" ∨ k = "from_address" ∨ k = "fromAddress") :
    (autoFillParams tool args (some tk) k =
      (let sol := isSolanaChain (args "chain")
       let y := walletF tk sol k (args k)
       if goString y = "" ∨ isFakeID (goString y) then
         some (GoValue.str (if sol then tk.solanaAddress else tk.evmAddress))
       else y)) ∧
    (∀ s, args k = some (GoValue.str s) → isFakeID s = true →
      autoFillParams tool args (some tk) k =
        some (GoValue.str (if isSolanaChain (args "chain") then tk.solanaAddress
          else tk.evmAddress))) := by
  have hk1 : k ∉ userKeys := by
    rcases hk with h | h | h <;> subst h <;> decide
  have hk2 : k ∈ walletParamsList := by
    rcases hk with h | h | h <;> subst h <;> decide
  have hk3 : k ∈ swapKeys := by
    rcases hk with h | h | h <;> subst h <;> decide
  have hc : containsSolana k = false := by
    rcases hk with h | h | h <;> subst h <;> decide
  have hnu : ¬ (userIDTools tool = true ∧ k ∈ userKeys) := fun h => hk1 h.2
  have happ : autoFillParams tool args (some tk) k =
      swapF tk (isSolanaChain (args "chain"))
        (walletF tk (isSolanaChain (args "chain")) k (args k)) := by
    rw [autoFillParams_apply]
    simp only [autoFillAt, if_neg hnu, if_pos hk2,
      if_pos (And.intro htool hk3)]
  constructor
  · rw [happ]
    rfl
  · intro s hs hf
    rw [happ, hs]
    exact swapfill_fake tk (isSolanaChain (args "chain")) k hc s hf

/-- C8: AutoFillParams is idempotent: applying it a second time to the
result of the first application changes nothing, for every tool name,
token set (including nil) and argument map. -/
theorem claim8_idempotent (tool : String) (args : ArgMap)
    (tokens : Option AuthTokens) :
    autoFillParams tool (autoFillParams tool args tokens) tokens =
      autoFillParams tool args tokens := by
  cases tokens with
  | none => rfl
  | some tk =>
    funext k
    rw [autoFillParams_apply tool (autoFillParams tool args (some tk)) tk k,
        autoFillParams_chain, autoFillParams_apply tool args tk k]
    exact autoFillAt_idem tool tk (isSolanaChain (args "chain")) k (args k)

/-- C6 counterexample: the code accepts only the case-insensitive string
"solana", so IsSolanaChain("SOL") is false, contradicting the claimed
acceptance of "sol". -/
theorem claim6_counterexample :
    isSolanaChain (some (GoValue.str "SOL")) = false := by decide

/-- C6 amended: IsSolanaChain is true exactly for the numeric chain id
1399811149 and strings whose lower-casing is "solana"; "sol" in any
casing is rejected, and the other concrete examples hold as claimed. -/
theorem claim6_amended_solana_chain :
    (∀ v : Option GoValue, isSolanaChain v = true ↔
      (v = some (GoValue.num 1399811149) ∨
        ∃ s, v = some (GoValue.str s) ∧ lowerString s = "solana")) ∧
    isSolanaChain (some (GoValue.num 1399811149)) = true ∧
    isSolanaChain (some (GoValue.str "Solana")) = true ∧
    isSolanaChain (some (GoValue.str "SOL")) = false ∧
    isSolanaChain (some (GoValue.str "ethereum")) = false ∧
    isSolanaChain (some (GoValue.num 1)) = false := by
  refine ⟨?_, by decide, by decide, by decide, by decide, by decide⟩
  intro v
  match v with
  | none => simp [isSolanaChain]
  | some (GoValue.str s) => simp [isSolanaChain]
  | some (GoValue.num n) => simp [isSolanaChain]
  | some GoValue.otherVal => simp [isSolanaChain]

/-- C2 witness: the amended characterization applied at the swap tool
`execute_swap` and key `taker` on concrete arguments. -/
theorem claim2_amended_swap_fill_witness :
    swapTools "execute_swap" = true ∧
    ((autoFillParams "execute_swap" c2Args (some c2Tokens) "taker" =
      (let sol := isSolanaChain (c2Args "chain")
       let y := walletF c2Tokens sol "taker" (c2Args "taker")
       if goString y = "" ∨ isFakeID (goString y) then
         some (GoValue.str
           (if sol then c2Tokens.solanaAddress else c2Tokens.evmAddress))
       else y)) ∧
     (∀ s, c2Args "taker" = some (GoValue.str s) → isFakeID s = true →
       autoFillParams "execute_swap" c2Args (some c2Tokens) "taker" =
         some (GoValue.str (if isSolanaChain (c2Args "chain") then
           c2Tokens.solanaAddress else c2Tokens.evmAddress)))) :=
  ⟨by decide,
   claim2_amended_swap_fill "execute_swap" c2Args c2Tokens "taker"
     (by decide) (Or.inl rfl)⟩

/-
Auth lifecycle manager: RefreshTokens from internal/auth/auth.go.

The HTTP interaction with the refresh endpoint and the credential
store are oracles supplied in a `RefreshEnv`; the control flow of the
Go function is reproduced exactly.  Error values carry the literal
message heads of the corresponding Go error returns.
-/

/-- Outcome of the POST to the refresh endpoint, as seen after body
reading and JSON parsing: a transport/read failure, or a status code
with the access token and expiry that the two-shape parse extracted
(`parsed = none` models an unparseable body; an empty extracted access
token models the empty-token case). -/
inductive RefreshHTTPResult
  | transportFail
  | resp (status : Nat) (parsed : Option (String × String))
deriving DecidableEq, Repr

/-- Oracles consumed by one run of RefreshTokens. -/
structure RefreshEnv where
  /-- config.GetTokens(): `none` models a lookup error. -/
  stored : Option AuthTokens
  /-- config.IsHTTPSOrLocal(config.GetAuthURL()). -/
  authURLOk : Bool
  /-- The refresh endpoint exchange. -/
  http : RefreshHTTPResult
  /-- Whether config.SetTokens succeeds. -/
  setOk : Bool
  /-- What auth.Authenticate() would return if called. -/
  authResult : Except String AuthTokens

/-- The observable outcome of one run of RefreshTokens. -/
structure RefreshRun where
  result : Except String AuthTokens
  calledAuthenticate : Bool

/-- RefreshTokens from internal/auth/auth.go: falls back to
Authenticate() when GetTokens fails or the stored refresh token is
empty; otherwise posts the refresh token and returns an error on any
failure, or tokens keeping the stored refresh token and identity
fields with only the access token and its expiry replaced. -/
def refreshTokens (env : RefreshEnv) : RefreshRun :=
  match env.stored with
  | none => { result := env.authResult, calledAuthenticate := true }
  | some ex =>
    if ex.refreshToken = "" then
      { result := env.authResult, calledAuthenticate := true }
    else if ¬ env.authURLOk then
      { result := Except.error "authentication URL must use HTTPS or localhost",
        calledAuthenticate := false }
    else
      match env.http with
      | RefreshHTTPResult.transportFail =>
        { result := Except.error "token refresh request failed",
          calledAuthenticate := false }
      | RefreshHTTPResult.resp status parsed =>
        if status ≠ 200 then
          { result := Except.error "token refresh failed with status",
            calledAuthenticate := false }
        else
          match parsed with
          | none =>
            { result := Except.error "failed to parse refresh response",
              calledAuthenticate := false }
          | some (accessTok, exp) =>
            if accessTok = "" then
              { result := Except.error
                  "token refresh succeeded but received empty access token",
                calledAuthenticate := false }
            else if env.setOk then
              { result := Except.ok
                  { ex with accessToken := accessTok,
                            accessTokenExpiresAt := exp },
                calledAuthenticate := false }
            else
              { result := Except.error "failed to store refreshed tokens",
                calledAuthenticate := false }

def c3StoredTokens : AuthTokens :=
  ⟨"stale-access", "refresh-1", "e1", "e2", "AGENT-1", "nm", "0xE", "S", "org"⟩

def c3Env : RefreshEnv :=
  { stored := some c3StoredTokens
    authURLOk := true
    http := RefreshHTTPResult.resp 500 none
    setOk := true
    authResult := Except.ok
      ⟨"fresh-access", "refresh-2", "e3", "e4", "AGENT-1", "nm", "0xE", "S", "org"⟩ }

/-- C3 counterexample: with a refresh token held and the refresh
endpoint answering 500, RefreshTokens surfaces the refresh failure and
never calls Authenticate, contradicting the claimed fallback. -/
theorem claim3_counterexample :
    c3StoredTokens.refreshToken ≠ "" ∧
    (refreshTokens c3Env).calledAuthenticate = false ∧
    (refreshTokens c3Env).result =
      Except.error "token refresh failed with status" := by
  refine ⟨by decide, rfl, rfl⟩

/-- C3 amended: RefreshTokens falls back to Authenticate exactly when no
refresh token is held (GetTokens fails or the stored refresh token is
empty), in which case it returns whatever Authenticate returns; when a
refresh token is held, any failure of the refresh attempt is returned
as an error to the caller without calling Authenticate (the
Authenticate fallback for that case lives in EnsureAuthenticated). -/
theorem claim3_amended_refresh_fallback (env : RefreshEnv) :
    ((refreshTokens env).calledAuthenticate = true ↔
      (env.stored = none ∨
        ∃ t, env.stored = some t ∧ t.refreshToken = "")) ∧
    ((refreshTokens env).calledAuthenticate = true →
      (refreshTokens env).result = env.authResult) ∧
    (∀ t status parsed, env.stored = some t → t.refreshToken ≠ "" →
      env.authURLOk = true → env.http = RefreshHTTPResult.resp status parsed →
      status ≠ 200 →
      (refreshTokens env).result =
        Except.error "token refresh failed with status" ∧
      (refreshTokens env).calledAuthenticate = false) := by
  obtain ⟨stored, aok, http, setOk, authResult⟩ := env
  refine ⟨?_, ?_, ?_⟩
  · cases stored with
    | none => simp [refreshTokens]
    | some t =>
      by_cases ht : t.refreshToken = ""
      · simp [refreshTokens, ht]
      · simp only [refreshTokens, if_neg ht]
        constructor
        · intro h
          exfalso
          revert h
          by_cases ha : aok <;> simp [ha] <;> cases http with
          | transportFail => simp
          | resp status parsed =>
            by_cases hst : status = 200 <;> simp [hst] <;>
              cases parsed with
              | none => simp
              | some p =>
                by_cases hp : p.1 = "" <;> by_cases hso : setOk <;>
                  simp [hp, hso]
          
        · rintro (h | ⟨t2, ht2, hrt⟩)
          · exact absurd h (by simp)
          · injection ht2 with h2
            rw [← h2] at hrt
            exact absurd hrt ht
  · cases stored with
    | none => simp [refreshTokens]
    | some t =>
      by_cases ht : t.refreshToken = ""
      · simp [refreshTokens, ht]
      · simp only [refreshTokens, if_neg ht]
        intro h
        exfalso
        revert h
        by_cases ha : aok <;> simp [ha] <;> cases http with
        | transportFail => simp
        | resp status parsed =>
          by_cases hst : status = 200 <;> simp [hst] <;>
            cases parsed with
            | none => simp
            | some p =>
              by_cases hp : p.1 = "" <;> by_cases hso : setOk <;>
                simp [hp, hso]
  · intro t status parsed hstored hrt hok hhttp hst
    cases hstored
    subst hhttp
    have hok2 : aok = true := hok
    simp [refreshTokens, hrt, hok2, hst]

/-
Proxy server: handleCall from internal/proxy/handlers.go plus the
request counter from internal/proxy/server.go.  The backend exchanges,
EnsureAuthenticated and the retry-path auth.Authenticate() are oracle
inputs; `second` is consumed only when the code actually re-forwards.
-/

/-- One doMCPCall exchange: a transport/read error, or the raw backend
status code and body. -/
inductive BackendResult
  | transportFail
  | ok (status : Nat) (body : String)
deriving DecidableEq, Repr

/-- Which re-authentication entry point the 401/403 retry path invokes
(the source calls auth.Authenticate, never auth.RefreshTokens). -/
inductive ReauthKind
  | fullAuthenticate
  | refreshTokens
deriving DecidableEq, Repr

/-- The body written to the client: a proxy-generated error JSON
(identified by its message head) or the backend body verbatim. -/
inductive RespBody
  | errorBody (tag : String)
  | backendBody (body : String)
deriving DecidableEq, Repr

/-- Oracles consumed by one run of handleCall. -/
structure HandleCallEnv where
  /-- Decoded request body after name/tool normalization; `none` models
  a JSON decode failure. -/
  parse : Option (String × ArgMap)
  /-- auth.EnsureAuthenticated(); `none` models an error. -/
  ensureAuth : Option AuthTokens
  /-- Result of the first doMCPCall. -/
  first : BackendResult
  /-- auth.Authenticate() on the retry path; `none` models an error. -/
  reauth : Option AuthTokens
  /-- Result of the second doMCPCall, if one is made. -/
  second : BackendResult

/-- The observable outcome of one run of handleCall: the HTTP response,
every forwarded (arguments, tokens) pair in order, the re-auth calls
made, and whether incrementRequests ran. -/
structure CallOutcome where
  status : Nat
  body : RespBody
  forwards : List (ArgMap × AuthTokens)
  reauthAttempts : List ReauthKind
  incremented : Bool

/-- handleCall from internal/proxy/handlers.go.  Mirrors the source:
400 on decode failure, 401 on auth failure, 502 on transport error,
AutoFillParams before each forward, a single Authenticate-and-retry on
401/403 (skipped when Authenticate fails, falling through with the
first response), and incrementRequests on every path that reaches the
response-writing tail, whatever the final status code. -/
def handleCall (env : HandleCallEnv) : CallOutcome :=
  match env.parse with
  | none =>
    { status := 400, body := RespBody.errorBody "invalid request body",
      forwards := [], reauthAttempts := [], incremented := false }
  | some (tool, args0) =>
    match env.ensureAuth with
    | none =>
      { status := 401, body := RespBody.errorBody "authentication failed",
        forwards := [], reauthAttempts := [], incremented := false }
    | some tk =>
      let args1 := autoFillParams tool args0 (some tk)
      match env.first with
      | BackendResult.transportFail =>
        { status := 502, body := RespBody.errorBody "upstream request failed",
          forwards := [(args1, tk)], reauthAttempts := [], incremented := false }
      | BackendResult.ok st1 b1 =>
        if st1 = 401 ∨ st1 = 403 then
          match env.reauth with
          | none =>
            { status := st1, body := RespBody.backendBody b1,
              forwards := [(args1, tk)],
              reauthAttempts := [ReauthKind.fullAuthenticate],
              incremented := true }
          | some tk2 =>
            let args2 := autoFillParams tool args1 (some tk2)
            match env.second with
            | BackendResult.transportFail =>
              { status := 502,
                body := RespBody.errorBody "upstream request failed after retry",
                forwards := [(args1, tk), (args2, tk2)],
                reauthAttempts := [ReauthKind.fullAuthenticate],
                incremented := false }
            | BackendResult.ok st2 b2 =>
              { status := st2, body := RespBody.backendBody b2,
                forwards := [(args1, tk), (args2, tk2)],
                reauthAttempts := [ReauthKind.fullAuthenticate],
                incremented := true }
        else
          { status := st1, body := RespBody.backendBody b1,
            forwards := [(args1, tk)], reauthAttempts := [],
            incremented := true }

def cTokensA : AuthTokens :=
  ⟨"at", "rt", "e1", "e2", "AGENT-1", "nm", "0xE", "S", "org"⟩

def cTokensB : AuthTokens :=
  ⟨"at2", "rt2", "e1", "e2", "AGENT-1", "nm", "0xE", "S", "org"⟩

def c1Env : HandleCallEnv :=
  { parse := some ("get_portfolio", fun _ => none)
    ensureAuth := some cTokensA
    first := BackendResult.ok 401 "denied"
    reauth := none
    second := BackendResult.ok 200 "unused" }

/-- C1 counterexample: a /call request that passed session auth and
authenticated, whose first forward returned 401, but whose
re-authentication failed: the call is forwarded once, not twice, so
the claimed unconditional single re-forward does not happen. -/
theorem claim1_counterexample :
    c1Env.parse.isSome = true ∧ c1Env.ensureAuth.isSome = true ∧
    c1Env.first = BackendResult.ok 401 "denied" ∧
    (handleCall c1Env).forwards.length = 1 ∧
    (handleCall c1Env).forwards.length ≠ 2 := by
  refine ⟨rfl, rfl, rfl, rfl, by decide⟩

/-- C1 amended: on a first-forward 401/403 the proxy attempts exactly
one full re-authentication via Authenticate (never RefreshTokens); if
it succeeds the call is re-forwarded exactly once with re-auto-filled
arguments and the client receives the retried backend response (or 502
on a retry transport error); if re-authentication fails there is no
re-forward and the client receives the first backend response. -/
theorem claim1_amended_retry (env : HandleCallEnv) (tool : String)
    (args0 : ArgMap) (tk : AuthTokens) (st1 : Nat) (b1 : String)
    (hp : env.parse = some (tool, args0))
    (ha : env.ensureAuth = some tk)
    (hf : env.first = BackendResult.ok st1 b1)
    (hs : st1 = 401 ∨ st1 = 403) :
    (handleCall env).reauthAttempts = [ReauthKind.fullAuthenticate] ∧
    ((handleCall env).forwards.length = 1 ∨
      (handleCall env).forwards.length = 2) ∧
    (env.reauth = none →
      (handleCall env).forwards = [(autoFillParams tool args0 (some tk), tk)] ∧
      (handleCall env).status = st1 ∧
      (handleCall env).body = RespBody.backendBody b1) ∧
    (∀ tk2, env.reauth = some tk2 →
      (handleCall env).forwards =
        [(autoFillParams tool args0 (some tk), tk),
         (autoFillParams tool (autoFillParams tool args0 (some tk)) (some tk2),
           tk2)] ∧
      (∀ st2 b2, env.second = BackendResult.ok st2 b2 →
        (handleCall env).status = st2 ∧
        (handleCall env).body = RespBody.backendBody b2) ∧
      (env.second = BackendResult.transportFail →
        (handleCall env).status = 502 ∧
        (handleCall env).body =
          RespBody.errorBody "upstream request failed after retry")) := by
  obtain ⟨p, a, f, r, s⟩ := env
  simp only at hp ha hf
  subst hp
  subst ha
  subst hf
  cases r <;> cases s <;> simp [handleCall, hs]

def c1EnvB : HandleCallEnv :=
  { parse := some ("get_portfolio", fun _ => none)
    ensureAuth := some cTokensA
    first := BackendResult.ok 403 "denied"
    reauth := some cTokensB
    second := BackendResult.ok 200 "fine" }

/-- C1 witness: the amended theorem applied to a concrete environment
in which re-authentication succeeds and the retry completes. -/
theorem claim1_amended_retry_witness :
    (c1EnvB.parse = some ("get_portfolio", fun _ => none) ∧
     c1EnvB.ensureAuth = some cTokensA ∧
     c1EnvB.first = BackendResult.ok 403 "denied" ∧
     ((403 : Nat) = 401 ∨ (403 : Nat) = 403)) ∧
    ((handleCall c1EnvB).reauthAttempts = [ReauthKind.fullAuthenticate] ∧
     ((handleCall c1EnvB).forwards.length = 1 ∨
       (handleCall c1EnvB).forwards.length = 2) ∧
     (c1EnvB.reauth = none →
       (handleCall c1EnvB).forwards =
         [(autoFillParams "get_portfolio" (fun _ => none) (some cTokensA),
           cTokensA)] ∧
       (handleCall c1EnvB).status = 403 ∧
       (handleCall c1EnvB).body = RespBody.backendBody "denied") ∧
     (∀ tk2, c1EnvB.reauth = some tk2 →
       (handleCall c1EnvB).forwards =
         [(autoFillParams "get_portfolio" (fun _ => none) (some cTokensA),
           cTokensA),
          (autoFillParams "get_portfolio"
            (autoFillParams "get_portfolio" (fun _ => none) (some cTokensA))
            (some tk2), tk2)] ∧
       (∀ st2 b2, c1EnvB.second = BackendResult.ok st2 b2 →
         (handleCall c1EnvB).status = st2 ∧
         (handleCall c1EnvB).body = RespBody.backendBody b2) ∧
       (c1EnvB.second = BackendResult.transportFail →
         (handleCall c1EnvB).status = 502 ∧
         (handleCall c1EnvB).body =
           RespBody.errorBody "upstream request failed after retry"))) :=
  ⟨⟨rfl, rfl, rfl, Or.inr rfl⟩,
   claim1_amended_retry c1EnvB "get_portfolio" (fun _ => none) cTokensA 403
     "denied" rfl rfl rfl (Or.inr rfl)⟩

/-- Whether a backend result is a 401/403 auth-error response. -/
def isAuthErrStatus : BackendResult → Bool
  | BackendResult.ok st _ => st == 401 || st == 403
  | BackendResult.transportFail => false

def c7Env : HandleCallEnv :=
  { parse := some ("get_token_info", fun _ => none)
    ensureAuth := some cTokensA
    first := BackendResult.ok 500 "backend exploded"
    reauth := none
    second := BackendResult.ok 200 "unused" }

/-- C7 counterexample: a completed call whose final backend response is
500 (not a success) still increments the request counter, contradicting
the claim that non-2xx outcomes leave the counter unchanged. -/
theorem claim7_counterexample :
    (handleCall c7Env).status = 500 ∧
    ¬ (200 ≤ (handleCall c7Env).status ∧ (handleCall c7Env).status < 300) ∧
    (handleCall c7Env).incremented = true := by
  refine ⟨rfl, by decide, rfl⟩

/-- C7 amended: the request counter is incremented exactly when the
call completes a backend exchange — the body decodes, authentication
succeeds, the first forward has no transport error, and, when a
401/403 answer triggers a successful re-authentication, the retry
forward has no transport error — regardless of the final status code;
it is unchanged when the request fails before or during dispatch. -/
theorem claim7_amended_counter (env : HandleCallEnv) :
    (handleCall env).incremented = true ↔
      (env.parse ≠ none ∧ env.ensureAuth ≠ none ∧
       env.first ≠ BackendResult.transportFail ∧
       ¬ (isAuthErrStatus env.first = true ∧ env.reauth ≠ none ∧
          env.second = BackendResult.transportFail)) := by
  obtain ⟨p, a, f, r, s⟩ := env
  cases p with
  | none => simp [handleCall]
  | some pr =>
    obtain ⟨tool, args0⟩ := pr
    cases a with
    | none => simp [handleCall]
    | some tk =>
      cases f with
      | transportFail => simp [handleCall, isAuthErrStatus]
      | ok st b =>
        by_cases hst : st = 401 ∨ st = 403
        · have hb : isAuthErrStatus (BackendResult.ok st b) = true := by
            rcases hst with h | h <;> subst h <;> simp [isAuthErrStatus]
          cases r with
          | none => simp [handleCall, hst, hb]
          | some tk2 =>
            cases s with
            | transportFail => simp [handleCall, hst, hb]
            | ok st2 b2 => simp [handleCall, hst, hb]
        · have hb : isAuthErrStatus (BackendResult.ok st b) = false := by
            push_neg at hst
            simp [isAuthErrStatus, hst.1, hst.2]
          simp [handleCall, hst, hb]

/-
Middleware: withAuth from internal/proxy/middleware.go, and the route
table from NewProxyServer in internal/proxy/server.go.
-/

/-- What the middleware does with a request: write a rejection response
without calling the wrapped handler, or invoke the wrapped handler. -/
inductive GateOutcome
  | rejected (status : Nat) (body : String)
  | invoked
deriving DecidableEq, Repr

/-- The JSON body written on rejection. -/
def forbiddenBody : String := "\x7b\"error\":\"Forbidden\"\x7d"

/-- The characters of the literal "Bearer " stripped by the middleware. -/
def bearerTag : List Char := ['B', 'e', 'a', 'r', 'e', 'r', ' ']

/-- strings.TrimPrefix(authHeader, "Bearer ") over decoded characters
("Bearer " is ASCII, so rune and byte views agree). -/
def trimBearerChars (l : List Char) : List Char :=
  if bearerTag.isPrefixOf l then l.drop 7 else l

/-- withAuth from middleware.go.  The header is its character list;
`[]` models an absent header (Go Header.Get returns "").  The source
compares the trimmed token with subtle.ConstantTimeCompare, which is 1
exactly on equality, so the model uses equality. -/
def withAuthGate (sessionToken : List Char) (authHeader : List Char) :
    GateOutcome :=
  if authHeader = [] then GateOutcome.rejected 403 forbiddenBody
  else if trimBearerChars authHeader = authHeader ∨
      trimBearerChars authHeader ≠ sessionToken then
    GateOutcome.rejected 403 forbiddenBody
  else GateOutcome.invoked

/-- The route table registered by NewProxyServer: pattern paired with
whether the handler is wrapped in withAuth. -/
def proxyRoutes : List (String × Bool) :=
  [("GET /health", false), ("GET /tools", true),
   ("POST /call", true), ("GET /stream", true)]

theorem trimBearerChars_of_tagged (l : List Char)
    (hp : bearerTag.isPrefixOf l) : l = bearerTag ++ trimBearerChars l := by
  obtain ⟨t, ht⟩ := List.isPrefixOf_iff_prefix.mp hp
  rw [trimBearerChars, if_pos hp, ← ht]
  have : (bearerTag ++ t).drop 7 = t := by
    have h7 : bearerTag.length = 7 := by decide
    rw [← h7, List.drop_left]
  rw [this]

/-- C4: every request to an authenticated route whose Authorization
header is absent or whose Bearer value differs from the session token
is rejected with 403 and the Forbidden JSON body, and the wrapped
handler is never invoked; in the route table only GET /health is
registered without the withAuth wrapper. -/
theorem claim4_session_gate :
    (∀ (st hdr : List Char), hdr ≠ bearerTag ++ st →
      withAuthGate st hdr = GateOutcome.rejected 403 forbiddenBody ∧
      withAuthGate st hdr ≠ GateOutcome.invoked) ∧
    proxyRoutes.lookup "GET /health" = some false ∧
    proxyRoutes.lookup "GET /tools" = some true ∧
    proxyRoutes.lookup "POST /call" = some true ∧
    proxyRoutes.lookup "GET /stream" = some true := by
  refine ⟨?_, by decide, by decide, by decide, by decide⟩
  intro st hdr hne
  have main : withAuthGate st hdr = GateOutcome.rejected 403 forbiddenBody := by
    unfold withAuthGate
    by_cases h0 : hdr = []
    · rw [if_pos h0]
    · rw [if_neg h0]
      by_cases hp : bearerTag.isPrefixOf hdr
      · have htag := trimBearerChars_of_tagged hdr hp
        have hne2 : trimBearerChars hdr ≠ st := by
          intro he
          exact hne (by rw [htag, he])
        rw [if_pos (Or.inr hne2)]
      · have htok : trimBearerChars hdr = hdr := by
          rw [trimBearerChars, if_neg hp]
        rw [if_pos (Or.inl htok)]
  refine ⟨main, ?_⟩
  rw [main]
  intro h
  cases h

/-- C4 witness: a missing header and a wrong-token header are both
rejected on a concrete session token. -/
theorem claim4_session_gate_witness :
    (([] : List Char) ≠ bearerTag ++ ['s', '3'] ∧
      withAuthGate ['s', '3'] [] =
        GateOutcome.rejected 403 forbiddenBody ∧
      withAuthGate ['s', '3'] [] ≠ GateOutcome.invoked) ∧
    (('B' :: 'e' :: 'a' :: 'r' :: 'e' :: 'r' :: ' ' :: ['w', 'r']) ≠
        bearerTag ++ ['s', '3'] ∧
      withAuthGate ['s', '3']
          ('B' :: 'e' :: 'a' :: 'r' :: 'e' :: 'r' :: ' ' :: ['w', 'r']) =
        GateOutcome.rejected 403 forbiddenBody ∧
      withAuthGate ['s', '3']
          ('B' :: 'e' :: 'a' :: 'r' :: 'e' :: 'r' :: ' ' :: ['w', 'r']) ≠
        GateOutcome.invoked) :=
  ⟨⟨by decide,
    (claim4_session_gate.1 ['s', '3'] [] (by decide)).1,
    (claim4_session_gate.1 ['s', '3'] [] (by decide)).2⟩,
   ⟨by decide,
    (claim4_session_gate.1 ['s', '3'] _ (by decide)).1,
    (claim4_session_gate.1 ['s', '3'] _ (by decide)).2⟩⟩

/-
JSON-RPC bridge: Run and handleRequest from internal/mcp/bridge.go.
-/

/-- A JSON-RPC request as decoded by the bridge.  `paramsOk` records
whether req.Params unmarshals into ToolCallParams (only consulted for
tools/call). -/
structure JSONRPCRequest where
  method : String
  id : Option GoValue
  paramsOk : Bool
deriving DecidableEq, Repr

/-- A JSON-RPC response as written by the bridge: the echoed id, the
error code of the Error member when one is set, and whether a Result
member is set.  Tool-execution failures are results, never errors. -/
structure BridgeResponse where
  id : Option GoValue
  errCode : Option Int
  hasResult : Bool
deriving DecidableEq, Repr

/-- Oracle for handleRequest: whether doToolsList succeeds.  A failed
doToolsCall still produces a Result carrying error text, so it needs
no oracle here. -/
structure BridgeEnv where
  listOk : Bool
deriving DecidableEq, Repr

/-- handleRequest from bridge.go: dispatch on the method name. -/
def handleRequest (env : BridgeEnv) (req : JSONRPCRequest) :
    Option BridgeResponse :=
  if req.method = "initialize" then
    some { id := req.id, errCode := none, hasResult := true }
  else if req.method = "notifications/initialized" then none
  else if req.method = "tools/list" then
    if env.listOk then some { id := req.id, errCode := none, hasResult := true }
    else some { id := req.id, errCode := some (-32603), hasResult := false }
  else if req.method = "tools/call" then
    if req.paramsOk then
      some { id := req.id, errCode := none, hasResult := true }
    else some { id := req.id, errCode := some (-32602), hasResult := false }
  else some { id := req.id, errCode := some (-32601), hasResult := false }

/-- One line read from standard input by Run. -/
inductive StdinLine
  | emptyLine
  | unparseable
  | parsed (req : JSONRPCRequest)

/-- What one loop iteration of Run writes: at most one response on
standard output, and whether an error was logged to standard error. -/
structure LineEffect where
  stdoutResponse : Option BridgeResponse
  stderrLogged : Bool
deriving DecidableEq, Repr

/-- One iteration of the Run loop from bridge.go: empty lines are
skipped; an unmarshal failure is logged to stderr and the line is
skipped; otherwise the handleRequest response, if any, is written. -/
def processLine (env : BridgeEnv) : StdinLine → LineEffect
  | StdinLine.emptyLine => { stdoutResponse := none, stderrLogged := false }
  | StdinLine.unparseable => { stdoutResponse := none, stderrLogged := true }
  | StdinLine.parsed req =>
    match handleRequest env req with
    | none => { stdoutResponse := none, stderrLogged := false }
    | some r => { stdoutResponse := some r, stderrLogged := false }

def c9Env : BridgeEnv := { listOk := true }

/-- C9 counterexample: an unparseable stdin line produces no stdout
response at all — in particular no -32700 JSON-RPC error object — only
a stderr log, contradicting the claimed parse-error answer. -/
theorem claim9_counterexample :
    (processLine c9Env StdinLine.unparseable).stdoutResponse = none ∧
    (processLine c9Env StdinLine.unparseable).stderrLogged = true :=
  ⟨rfl, rfl⟩

/-- C9 amended: a line that is not valid JSON-RPC is logged to standard
error and skipped without any stdout response (the bridge never emits
-32700); an unknown method is answered on stdout with a JSON-RPC error
object carrying code -32601, echoing the request id. -/
theorem claim9_amended_protocol_errors :
    (∀ env : BridgeEnv, processLine env StdinLine.unparseable =
      { stdoutResponse := none, stderrLogged := true }) ∧
    (∀ (env : BridgeEnv) (req : JSONRPCRequest),
      req.method ≠ "initialize" →
      req.method ≠ "notifications/initialized" →
      req.method ≠ "tools/list" →
      req.method ≠ "tools/call" →
      processLine env (StdinLine.parsed req) =
        { stdoutResponse :=
            some { id := req.id, errCode := some (-32601), hasResult := false },
          stderrLogged := false }) := by
  refine ⟨fun env => rfl, ?_⟩
  intro env req h1 h2 h3 h4
  simp [processLine, handleRequest, h1, h2, h3, h4]

def c9Req : JSONRPCRequest :=
  ⟨"resources/list", some (GoValue.num 7), true⟩

def c9Resp : BridgeResponse :=
  ⟨some (GoValue.num 7), some (-32601), false⟩

/-- C9 witness: the amended theorem applied to an unknown method. -/
theorem claim9_amended_protocol_errors_witness :
    processLine c9Env (StdinLine.parsed c9Req) =
      { stdoutResponse := some c9Resp, stderrLogged := false } :=
  claim9_amended_protocol_errors.2 c9Env c9Req
    (by decide) (by decide) (by decide) (by decide)

end Boba
